import Mathlib

/-!
Shallow embedding of the Stripe billing core of this repository:
the webhook ingestion/dedup log (`stripe_webhook`), the event
dispatch reconciler (`dispatch_event` and its handlers), the usage
metering synchronizer (`sync_usage`), the provider adapter's retrying
usage submission (`record_meter_event`), and the subscription-active
predicate (`is_client_subscription_active`).

Timestamps are modelled as integers (Unix seconds, UTC); database
tables as lists in insertion order (SQLAlchemy `.first()` becomes
`List.find?`); Python `None` / missing dict keys as `Option`; Python
truthiness of optional strings and ints is modelled explicitly.
-/

/-- Python truthiness of an optional string: `None` and `""` are falsy. -/
def strTruthy : Option String → Bool
  | none => false
  | some s => !(s == "")

/-- Python `a or b` on optional strings: yields `b` when `a` is falsy. -/
def pyOr (a b : Option String) : Option String :=
  if strTruthy a then a else b

/-- Python truthiness of an optional int: `None` and `0` are falsy. -/
def intTruthy : Option Int → Bool
  | none => false
  | some i => !(i == 0)

/-- Digit-run parser for Python `int(str)`: after the optional sign, the
literal is digits with single underscores strictly between digits. -/
def pyIntDigitsAux : Nat → List Char → Option Nat
  | acc, [] => some acc
  | acc, c :: rest =>
    if c.isDigit then
      pyIntDigitsAux (acc * 10 + (c.toNat - 48)) rest
    else if c == '_' then
      match rest with
      | [] => none
      | d :: rest2 =>
        if d.isDigit then pyIntDigitsAux (acc * 10 + (d.toNat - 48)) rest2
        else none
    else none

/-- Parse a non-empty run of digits (first character must be a digit). -/
def pyIntDigits : List Char → Option Nat
  | [] => none
  | c :: rest =>
    if c.isDigit then pyIntDigitsAux (c.toNat - 48) rest else none

/-- Strip leading and trailing whitespace from a character list (the
string strip `int()` performs before parsing). -/
def stripChars (cs : List Char) : List Char :=
  ((cs.dropWhile Char.isWhitespace).reverse.dropWhile Char.isWhitespace).reverse

/-- Python `int(s)` on a string: strips surrounding whitespace, accepts an
optional sign, then a digit run; returns `none` where Python raises
`ValueError`. -/
def pyInt (s : String) : Option Int :=
  match stripChars s.data with
  | '+' :: rest => (pyIntDigits rest).map Int.ofNat
  | '-' :: rest => (pyIntDigits rest).map (fun n => -(Int.ofNat n))
  | rest => (pyIntDigits rest).map Int.ofNat

/-- The configuration fields the billing core reads (`app/config.py`);
each is an environment variable that may be unset. -/
structure Settings where
  stripe_price_metered_id : Option String
deriving Repr, DecidableEq

/-- A row of `clients` with the Stripe billing columns
(`app/db/models.py` plus the `20260222_01` migration). -/
structure Client where
  id : Int
  stripe_customer_id : Option String
  stripe_subscription_id : Option String
  stripe_metered_subscription_item_id : Option String
  subscription_status : Option String
  subscription_current_period_end : Option Int
  billing_enabled : Bool
  usage_synced_until : Option Int
deriving Repr, DecidableEq

/-- A row of `stripe_event_log` (migration `20260222_01`). -/
structure StripeEventLog where
  id : Int
  event_id : String
  event_type : String
  status : String
  error_message : Option String
  processed_at : Option Int
deriving Repr, DecidableEq

/-- A row of `usage_events` (only the columns the synchronizer reads). -/
structure UsageEvent where
  client_id : Int
  units : Int
  created_at : Int
deriving Repr, DecidableEq

/-- One entry of `subscription["items"]["data"]` in a webhook payload. -/
structure SubscriptionItem where
  id : Option String
  price_id : Option String
deriving Repr, DecidableEq

/-- The `data.object` of a decoded Stripe event, restricted to the keys
the handlers read. A checkout session, a subscription and an invoice all
project onto this record; absent keys are `none`. -/
structure EventObject where
  client_reference_id : Option String
  metadata_client_id : Option String
  customer : Option String
  subscription : Option String
  obj_id : Option String
  obj_status : Option String
  current_period_end : Option Int
  items_data : List SubscriptionItem
deriving Repr, DecidableEq

/-- A decoded Stripe event as seen by `stripe_webhook`. -/
structure Event where
  event_id : String
  event_type : String
  obj : EventObject
deriving Repr, DecidableEq

/-- The database state the billing core touches. -/
structure Db where
  clients : List Client
  event_log : List StripeEventLog
  usage_events : List UsageEvent
deriving Repr, DecidableEq

/-- Embeds `extract_metered_subscription_item_id` (stripe_client.py:71-80):
first line item whose `price.id` equals the configured metered price id;
`none` when the price id is unconfigured or nothing matches. -/
def extract_metered_subscription_item_id (st : Settings) (obj : EventObject) : Option String :=
  if !(strTruthy st.stripe_price_metered_id) then none
  else
    match obj.items_data.find? (fun item => item.price_id == st.stripe_price_metered_id) with
    | some item => item.id
    | none => none

/-- Embeds `unix_to_datetime` (stripe_client.py:83-86); with integer timestamps
this is the identity on `Option`. -/
def unix_to_datetime (ts : Option Int) : Option Int := ts

/-- Embeds `_is_client_subscription_active` (security.py:79-89). -/
def is_client_subscription_active (c : Client) (now : Int) : Bool :=
  if !c.billing_enabled then false
  else if !(c.subscription_status == some "active" || c.subscription_status == some "trialing") then false
  else
    match c.subscription_current_period_end with
    | some pe => if pe ≤ now then false else true
    | none => true

/-- The Stripe exception classes distinguished by the adapter; the first
three form `RETRYABLE_STRIPE_ERRORS` (stripe_client.py:10-14). -/
inductive StripeError
  | apiConnection
  | api
  | rateLimit
  | invalidRequest
  | card
  | authentication
deriving Repr, DecidableEq

/-- Membership in the `RETRYABLE_STRIPE_ERRORS` tuple. -/
def retryableStripeError : StripeError → Bool
  | .apiConnection => true
  | .api => true
  | .rateLimit => true
  | _ => false

/-- A created usage record, opaque to the caller. -/
structure UsageRecord where
  tag : Nat
deriving Repr, DecidableEq

/-- Embeds `record_meter_event` (stripe_client.py:89-113). `provider k` is the
provider's response to the k-th `create_usage_record` call of this
invocation. Returns the Python result (`none` is the skipped sentinel for
non-positive quantities) or the raised error, paired with the number of
provider calls actually made. -/
def record_meter_event (provider : Nat → Except StripeError UsageRecord)
    (quantity : Int) : Except StripeError (Option UsageRecord) × Nat :=
  if quantity ≤ 0 then (.ok none, 0)
  else
    match provider 0 with
    | .ok r => (.ok (some r), 1)
    | .error e0 =>
      if retryableStripeError e0 then
        match provider 1 with
        | .ok r => (.ok (some r), 2)
        | .error e1 =>
          if retryableStripeError e1 then
            match provider 2 with
            | .ok r => (.ok (some r), 3)
            | .error e2 => (.error e2, 3)
          else (.error e1, 2)
      else (.error e0, 1)

/-- Embeds `.first()` on `clients` filtered by primary key. -/
def clientById (clients : List Client) (i : Int) : Option Client :=
  clients.find? (fun c => c.id == i)

/-- Embeds `_client_by_stripe_ids` (stripe.py:63-70): lookup by subscription id
first, then by customer id; falsy arguments skip their lookup. -/
def client_by_stripe_ids (clients : List Client)
    (customer_id subscription_id : Option String) : Option Client :=
  match
    (if strTruthy subscription_id then
      clients.find? (fun c => c.stripe_subscription_id == subscription_id)
    else none) with
  | some found => some found
  | none =>
    if strTruthy customer_id then
      clients.find? (fun c => c.stripe_customer_id == customer_id)
    else none

/-- Commit an ORM mutation of one client back into the table. -/
def updateClient (clients : List Client) (u : Client) : List Client :=
  clients.map (fun c => if c.id == u.id then u else c)

/-- Embeds `_update_client_subscription_state` (stripe.py:73-77). -/
def update_client_subscription_state (st : Settings) (client : Client)
    (sub : EventObject) : Client :=
  { client with
    stripe_subscription_id := sub.obj_id
    subscription_status := sub.obj_status
    subscription_current_period_end := unix_to_datetime sub.current_period_end
    stripe_metered_subscription_item_id := extract_metered_subscription_item_id st sub }

/-- Embeds `_handle_checkout_completed` (stripe.py:80-93). `Except.error` models a
raised exception (here: `int()` on an unparseable tenant reference). -/
def handle_checkout_completed (clients : List Client) (event : Event) :
    Except String (List Client × Bool) :=
  let payload := event.obj
  match pyOr payload.client_reference_id payload.metadata_client_id with
  | none => .ok (clients, false)
  | some raw =>
    if raw == "" then .ok (clients, false)
    else
      match pyInt raw with
      | none => .error ("invalid literal for int with base 10: " ++ raw)
      | some cid =>
        match clientById clients cid with
        | none => .ok (clients, false)
        | some client =>
          let c1 := { client with stripe_customer_id := payload.customer }
          let c2 :=
            if strTruthy payload.subscription then
              { c1 with stripe_subscription_id := payload.subscription }
            else c1
          .ok (updateClient clients c2, true)

/-- Embeds `_handle_subscription_event` (stripe.py:96-114). -/
def handle_subscription_event (st : Settings) (clients : List Client)
    (event : Event) : Except String (List Client × Bool) :=
  let sub := event.obj
  let step : Except String (Option Client) :=
    match client_by_stripe_ids clients sub.customer sub.obj_id with
    | some c => .ok (some c)
    | none =>
      match sub.metadata_client_id with
      | none => .ok none
      | some m =>
        if m == "" then .ok none
        else
          match pyInt m with
          | none => .error ("invalid literal for int with base 10: " ++ m)
          | some cid => .ok (clientById clients cid)
  match step with
  | .error e => .error e
  | .ok none => .ok (clients, false)
  | .ok (some client) =>
    let c1 := { client with stripe_customer_id := sub.customer }
    let c2 := update_client_subscription_state st c1 sub
    let c3 :=
      if event.event_type == "customer.subscription.deleted" then
        { c2 with subscription_status := some "canceled" }
      else c2
    .ok (updateClient clients c3, true)

/-- Embeds `_handle_invoice_paid` (stripe.py:117-128). -/
def handle_invoice_paid (clients : List Client) (event : Event) :
    Except String (List Client × Bool) :=
  let invoice := event.obj
  match client_by_stripe_ids clients invoice.customer invoice.subscription with
  | none => .ok (clients, false)
  | some client =>
    .ok (updateClient clients { client with subscription_status := some "active" }, true)

/-- Embeds `_handle_invoice_failed` (stripe.py:131-142). -/
def handle_invoice_failed (clients : List Client) (event : Event) :
    Except String (List Client × Bool) :=
  let invoice := event.obj
  match client_by_stripe_ids clients invoice.customer invoice.subscription with
  | none => .ok (clients, false)
  | some client =>
    .ok (updateClient clients { client with subscription_status := some "past_due" }, true)

/-- Embeds `_dispatch_event` (stripe.py:145-159). -/
def dispatch_event (st : Settings) (clients : List Client) (event : Event) :
    Except String (List Client × Bool) :=
  if event.event_type == "checkout.session.completed" then
    handle_checkout_completed clients event
  else if (event.event_type == "customer.subscription.created"
      || event.event_type == "customer.subscription.updated"
      || event.event_type == "customer.subscription.deleted") then
    handle_subscription_event st clients event
  else if event.event_type == "invoice.paid" then
    handle_invoice_paid clients event
  else if event.event_type == "invoice.payment_failed" then
    handle_invoice_failed clients event
  else if event.event_type == "invoice.finalized" then
    .ok (clients, true)
  else
    .ok (clients, false)

/-- The dedup lookup `filter(event_id == ...).first()` (stripe.py:271). -/
def find_log (l : List StripeEventLog) (eid : String) : Option StripeEventLog :=
  l.find? (fun r => r.event_id == eid)

/-- The row inserted and committed before dispatch (stripe.py:275-282). -/
def new_log_row (nid : Int) (e : Event) : StripeEventLog :=
  { id := nid
    event_id := e.event_id
    event_type := e.event_type
    status := "ignored"
    error_message := none
    processed_at := none }

/-- The success-path status update on the log row (stripe.py:286-288). -/
def mark_log_done (l : List StripeEventLog) (rid : Int) (st : String)
    (ts : Int) : List StripeEventLog :=
  l.map (fun r => if r.id == rid then { r with status := st, processed_at := some ts } else r)

/-- The failure-path update (stripe.py:292-297): status `failed`, error
text truncated to 1000 characters, processed timestamp stamped. -/
def mark_log_failed (l : List StripeEventLog) (rid : Int) (err : String)
    (ts : Int) : List StripeEventLog :=
  l.map (fun r =>
    if r.id == rid then
      { r with
        status := "failed"
        error_message := some (err.take 1000)
        processed_at := some ts }
    else r)

/-- The HTTP outcome of the webhook endpoint (200 duplicate, 200 with the
handler status, or 500). The 400 signature-verification branch happens
before any state the model tracks and is omitted. -/
inductive WebhookResponse
  | duplicate
  | ok (st : String)
  | serverError
deriving Repr, DecidableEq

/-- Embeds `stripe_webhook` (stripe.py:249-298) after signature verification:
dedup check, insert-and-commit of the log row, dispatch inside a
transaction whose client writes are rolled back on failure, and the
independent commit of the failure record. `nid` is the fresh primary key
of the inserted row, `now` the processed timestamp. -/
def stripe_webhook (st : Settings) (db : Db) (e : Event) (now : Int)
    (nid : Int) : WebhookResponse × Db :=
  match find_log db.event_log e.event_id with
  | some _ => (.duplicate, db)
  | none =>
    let log1 := db.event_log ++ [new_log_row nid e]
    match dispatch_event st db.clients e with
    | .ok (clients2, handled) =>
      let stField := if handled then "processed" else "ignored"
      (.ok stField,
       { db with clients := clients2, event_log := mark_log_done log1 nid stField now })
    | .error msg =>
      (.serverError,
       { db with event_log := mark_log_failed log1 nid msg now })

/-- One row of the `sync-usage` response (`UsageSyncRow`, stripe.py:54-60). -/
structure SyncRow where
  client_id : Int
  synced_units : Int
  synced_until : Int
  dry_run : Bool
deriving Repr, DecidableEq

/-- One observed invocation of the provider usage-submission operation
(the `record_meter_event` call at stripe.py:225-229). -/
structure MeterCall where
  subscription_item_id : String
  quantity : Int
  timestamp : Int
deriving Repr, DecidableEq

/-- Outcome of one `sync-usage` request: the HTTP result (rows, or the
propagated provider error that aborts the request with no commit), the
committed database state afterwards, and the trace of provider calls. -/
structure SyncOutcome where
  result : Except StripeError (List SyncRow)
  db : Db
  calls : List MeterCall
deriving Repr

/-- The selection query of `sync_usage` (stripe.py:200-208): non-null
subscription id, non-null metered item id, status active or trialing,
optionally narrowed to one client (a falsy filter is ignored). -/
def eligible_clients (db : Db) (fil : Option Int) : List Client :=
  let base := db.clients.filter (fun c =>
    c.stripe_subscription_id.isSome
      && c.stripe_metered_subscription_item_id.isSome
      && (c.subscription_status == some "active" || c.subscription_status == some "trialing"))
  if intTruthy fil then base.filter (fun c => some c.id == fil) else base

/-- The per-client usage aggregation (stripe.py:212-223): sum of units
with `created_at` in `(high-water mark or epoch, now]`. -/
def compute_units (db : Db) (c : Client) (now : Int) : Int :=
  let start := c.usage_synced_until.getD 0
  ((db.usage_events.filter (fun u =>
    u.client_id == c.id && decide (start < u.created_at) && decide (u.created_at ≤ now))).map
      (fun u => u.units)).sum

/-- The body of the `for client in clients` loop (stripe.py:211-241).
`rme item qty ts` is the observable behaviour of `record_meter_event` for
this pass; an `Except.error` models the exception that propagates out of
the loop, discarding the uncommitted session. -/
def sync_loop (rme : String → Int → Int → Except StripeError (Option UsageRecord))
    (db0 : Db) (now : Int) (dryRun : Bool) :
    List Client → List Client → List SyncRow → List MeterCall →
    Except StripeError (List Client × List SyncRow) × List MeterCall
  | [], working, rows, calls => (.ok (working, rows), calls)
  | c :: rest, working, rows, calls =>
    let units := compute_units db0 c now
    let item := c.stripe_metered_subscription_item_id.getD ""
    if units > 0 && !dryRun then
      match rme item units now with
      | .error e => (.error e, calls ++ [⟨item, units, now⟩])
      | .ok _ =>
        sync_loop rme db0 now dryRun rest
          (updateClient working { c with usage_synced_until := some now })
          (rows ++ [⟨c.id, units, now, dryRun⟩])
          (calls ++ [⟨item, units, now⟩])
    else
      sync_loop rme db0 now dryRun rest
        (if !dryRun then updateClient working { c with usage_synced_until := some now } else working)
        (rows ++ [⟨c.id, units, now, dryRun⟩])
        calls

/-- Embeds `sync_usage` (stripe.py:196-246): select eligible clients, run the
loop, and commit only when the pass finished and was not a dry run. -/
def sync_usage (rme : String → Int → Int → Except StripeError (Option UsageRecord))
    (db : Db) (fil : Option Int) (dryRun : Bool) (now : Int) : SyncOutcome :=
  match sync_loop rme db now dryRun (eligible_clients db fil) db.clients [] [] with
  | (.ok (working, rows), calls) =>
    { result := .ok rows
      db := if dryRun then db else { db with clients := working }
      calls := calls }
  | (.error e, calls) =>
    { result := .error e
      db := db
      calls := calls }

/-- Number of Event Log rows carrying a given provider event id. -/
def count_log (l : List StripeEventLog) (eid : String) : Nat :=
  l.countP (fun r => r.event_id == eid)

/-- C8: for every client record and evaluation time, the active-subscription
predicate holds iff billing is enabled, the status is `active` or `trialing`,
and the period-end is unset or strictly after the evaluation time. -/
theorem active_subscription_iff (c : Client) (now : Int) :
    is_client_subscription_active c now = true ↔
      (c.billing_enabled = true
        ∧ (c.subscription_status = some "active" ∨ c.subscription_status = some "trialing")
        ∧ (c.subscription_current_period_end = none
            ∨ ∃ pe, c.subscription_current_period_end = some pe ∧ now < pe)) := by
  unfold is_client_subscription_active
  rcases hpe : c.subscription_current_period_end with _ | pe <;>
    cases hb : c.billing_enabled <;>
      simp [hpe, hb, not_le]

/-- C9: with a positive quantity, `record_meter_event` makes at most 3
provider calls; a non-transient error at the first or second attempt
propagates immediately with no further call; three failures whose first
two are transient end after the third call with the last error raised. -/
theorem record_meter_event_retry_policy (provider : Nat → Except StripeError UsageRecord)
    (q : Int) (hq : 0 < q) :
    (record_meter_event provider q).2 ≤ 3
  ∧ (∀ e0, provider 0 = .error e0 → retryableStripeError e0 = false →
        record_meter_event provider q = (.error e0, 1))
  ∧ (∀ e0 e1, provider 0 = .error e0 → retryableStripeError e0 = true →
        provider 1 = .error e1 → retryableStripeError e1 = false →
        record_meter_event provider q = (.error e1, 2))
  ∧ (∀ e0 e1 e2, provider 0 = .error e0 → retryableStripeError e0 = true →
        provider 1 = .error e1 → retryableStripeError e1 = true →
        provider 2 = .error e2 →
        record_meter_event provider q = (.error e2, 3)) := by
  have hnot : ¬ q ≤ 0 := not_le.mpr hq
  refine ⟨?_, ?_, ?_, ?_⟩
  · unfold record_meter_event
    rcases h0 : provider 0 with e0 | r0
    · by_cases hr0 : retryableStripeError e0
      · rcases h1 : provider 1 with e1 | r1
        · by_cases hr1 : retryableStripeError e1
          · rcases h2 : provider 2 with e2 | r2 <;>
              simp [hnot, h0, hr0, h1, hr1, h2]
          · simp [hnot, h0, hr0, h1, hr1]
        · simp [hnot, h0, hr0, h1]
      · simp [hnot, h0, hr0]
    · simp [hnot, h0]
  · intro e0 h0 hr0
    simp [record_meter_event, hnot, h0, hr0]
  · intro e0 e1 h0 hr0 h1 hr1
    simp [record_meter_event, hnot, h0, hr0, h1, hr1]
  · intro e0 e1 e2 h0 hr0 h1 hr1 h2
    simp [record_meter_event, hnot, h0, hr0, h1, hr1, h2]

/-- Closed instance of the retry-policy theorem: a non-retryable error on
the first attempt propagates after exactly one provider call. -/
theorem record_meter_event_retry_policy_witness :
    record_meter_event (fun _ => .error .invalidRequest) 5
      = (.error .invalidRequest, 1) :=
  (record_meter_event_retry_policy (fun _ => .error .invalidRequest) 5
    (by decide)).2.1 .invalidRequest rfl rfl

/-- Every provider call the sync loop makes carries the positive unit sum
that guarded it; calls present before the loop are preserved. -/
theorem sync_loop_calls_pos (rme : String → Int → Int → Except StripeError (Option UsageRecord))
    (db0 : Db) (now : Int) (dry : Bool) :
    ∀ (cs working : List Client) (rows : List SyncRow) (calls : List MeterCall),
      (∀ m ∈ calls, 0 < m.quantity) →
      ∀ m ∈ (sync_loop rme db0 now dry cs working rows calls).2, 0 < m.quantity := by
  intro cs
  induction cs with
  | nil =>
    intro working rows calls h m hm
    exact h m (by simpa [sync_loop] using hm)
  | cons c rest ih =>
    intro working rows calls h m hm
    by_cases hb : (compute_units db0 c now > 0 && !dry) = true
    · have hpos : 0 < compute_units db0 c now := by
        have := (Bool.and_eq_true _ _).mp hb
        exact of_decide_eq_true this.1
      rcases hr : rme (c.stripe_metered_subscription_item_id.getD "") (compute_units db0 c now) now
        with e | r
      · simp only [sync_loop, hb, if_true, hr] at hm
        rcases List.mem_append.mp hm with hA | hB
        · exact h m hA
        · rcases List.mem_singleton.mp hB with rfl
          exact hpos
      · simp only [sync_loop, hb, if_true, hr] at hm
        refine ih _ _ _ ?_ m hm
        intro m' hm'
        rcases List.mem_append.mp hm' with hA | hB
        · exact h m' hA
        · rcases List.mem_singleton.mp hB with rfl
          exact hpos
    · simp only [sync_loop, hb, if_false, Bool.false_eq_true] at hm
      exact ih _ _ _ h m hm

/-- C7: the synchronizer never invokes the provider usage submission with
a non-positive quantity, and `record_meter_event` itself short-circuits a
non-positive quantity into the skipped sentinel with zero provider calls. -/
theorem no_nonpositive_submission
    (rme : String → Int → Int → Except StripeError (Option UsageRecord))
    (db : Db) (fil : Option Int) (dry : Bool) (now : Int)
    (provider : Nat → Except StripeError UsageRecord) :
    (∀ m ∈ (sync_usage rme db fil dry now).calls, 0 < m.quantity)
  ∧ (∀ q : Int, q ≤ 0 → record_meter_event provider q = (.ok none, 0)) := by
  constructor
  · intro m hm
    have hall := sync_loop_calls_pos rme db now dry (eligible_clients db fil) db.clients [] []
      (by intro m' hm'; cases hm')
    rcases hres : sync_loop rme db now dry (eligible_clients db fil) db.clients [] []
      with ⟨res, calls⟩
    have hm' : m ∈ calls := by
      rcases res with e | ok <;> simpa [sync_usage, hres] using hm
    have := hall m (by rw [hres]; exact hm')
    exact this
  · intro q hq
    simp [record_meter_event, hq]

/-- Closed instance: a non-positive quantity is skipped without any
provider contact, and a concrete sync pass makes only positive calls. -/
theorem no_nonpositive_submission_witness :
    record_meter_event (fun _ => Except.ok ⟨0⟩) (-3) = (.ok none, 0) :=
  (no_nonpositive_submission (fun _ _ _ => .ok none) ⟨[], [], []⟩ none false 0
    (fun _ => Except.ok ⟨0⟩)).2 (-3) (by decide)

/-- On a dry run the sync loop only accumulates result rows: the working
client table and the call trace pass through untouched. -/
theorem sync_loop_dry_run (rme : String → Int → Int → Except StripeError (Option UsageRecord))
    (db0 : Db) (now : Int) :
    ∀ (cs working : List Client) (rows : List SyncRow) (calls : List MeterCall),
      sync_loop rme db0 now true cs working rows calls =
        (.ok (working, rows ++ cs.map (fun c => ⟨c.id, compute_units db0 c now, now, true⟩)), calls) := by
  intro cs
  induction cs with
  | nil => intro working rows calls; simp [sync_loop]
  | cons c rest ih =>
    intro working rows calls
    simp [sync_loop, ih]

/-- C6: a dry-run sync pass performs no provider usage-submission call,
leaves the database (in particular every high-water mark) unchanged, and
still returns the computed unit count for every eligible tenant. -/
theorem sync_usage_dry_run_frame
    (rme : String → Int → Int → Except StripeError (Option UsageRecord))
    (db : Db) (fil : Option Int) (now : Int) :
    sync_usage rme db fil true now =
      { result := .ok ((eligible_clients db fil).map
          (fun c => ⟨c.id, compute_units db c now, now, true⟩))
        db := db
        calls := [] } := by
  simp [sync_usage, sync_loop_dry_run]

/-- A client row with every billing column at its column default. -/
def baseClient : Client :=
  { id := 1
    stripe_customer_id := none
    stripe_subscription_id := none
    stripe_metered_subscription_item_id := none
    subscription_status := none
    subscription_current_period_end := none
    billing_enabled := true
    usage_synced_until := none }

/-- First sync-eligible tenant of the two-tenant fixture. -/
def tenantOne : Client :=
  { baseClient with
    id := 1
    stripe_subscription_id := some "sub_1"
    stripe_metered_subscription_item_id := some "si_1"
    subscription_status := some "active" }

/-- Second sync-eligible tenant of the two-tenant fixture. -/
def tenantTwo : Client :=
  { baseClient with
    id := 2
    stripe_subscription_id := some "sub_2"
    stripe_metered_subscription_item_id := some "si_2"
    subscription_status := some "active" }

/-- Two eligible tenants, each with pending usage inside the window. -/
def twoTenantDb : Db :=
  { clients := [tenantOne, tenantTwo]
    event_log := []
    usage_events := [⟨1, 5, 10⟩, ⟨2, 7, 10⟩] }

/-- A provider whose usage submission always fails with a (transient,
already retried-out) generic API error. -/
def failingRme : String → Int → Int → Except StripeError (Option UsageRecord) :=
  fun _ _ _ => .error .api

/-- C2 counterexample: with two eligible tenants both carrying positive
usage, a provider failure on the first tenant's submission makes the whole
pass return the error: the second tenant is never submitted (one call in
the trace), no result rows are produced, and nothing is committed. -/
theorem sync_failure_not_isolated_cex :
    (sync_usage failingRme twoTenantDb none false 100).result = .error .api
  ∧ (sync_usage failingRme twoTenantDb none false 100).calls = [⟨"si_1", 5, 100⟩]
  ∧ (sync_usage failingRme twoTenantDb none false 100).db = twoTenantDb :=
  ⟨rfl, rfl, rfl⟩

/-- If every earlier eligible tenant's positive submission succeeds and
tenant `c` (at an arbitrary position) fails, the loop stops at `c`: it
returns the error, and the call trace is the earlier tenants' positive
submissions followed by the failing one — nothing for later tenants. -/
theorem sync_loop_fail_at
    (rme : String → Int → Int → Except StripeError (Option UsageRecord))
    (db0 : Db) (now : Int) (c : Client) (post : List Client) (e : StripeError)
    (hpos : 0 < compute_units db0 c now)
    (herr : rme (c.stripe_metered_subscription_item_id.getD "")
      (compute_units db0 c now) now = .error e) :
    ∀ (pre working : List Client) (rows : List SyncRow) (calls : List MeterCall),
      (∀ c' ∈ pre, 0 < compute_units db0 c' now →
        ∃ r, rme (c'.stripe_metered_subscription_item_id.getD "")
          (compute_units db0 c' now) now = Except.ok r) →
      sync_loop rme db0 now false (pre ++ c :: post) working rows calls
        = (.error e,
           calls
             ++ (pre.filter (fun c' => decide (0 < compute_units db0 c' now))).map
                 (fun c' => ⟨c'.stripe_metered_subscription_item_id.getD "",
                             compute_units db0 c' now, now⟩)
             ++ [⟨c.stripe_metered_subscription_item_id.getD "",
                  compute_units db0 c now, now⟩]) := by
  intro pre
  induction pre with
  | nil =>
    intro working rows calls _
    simp [sync_loop, herr, decide_eq_true hpos]
  | cons p pre ih =>
    intro working rows calls hsucc
    by_cases hp : 0 < compute_units db0 p now
    · obtain ⟨r, hr⟩ := hsucc p (List.mem_cons_self _ _) hp
      have hb : (compute_units db0 p now > 0 && !false) = true := by
        simp [hp]
      rw [List.cons_append]
      simp only [sync_loop, hb, if_true, hr]
      rw [ih _ _ _ (fun c' hc' => hsucc c' (List.mem_cons_of_mem _ hc'))]
      simp [List.filter_cons, hp, List.append_assoc]
    · have hb : (compute_units db0 p now > 0 && !false) = false := by
        simp [hp]
      rw [List.cons_append]
      simp only [sync_loop, hb, Bool.false_eq_true, if_false]
      rw [ih _ _ _ (fun c' hc' => hsucc c' (List.mem_cons_of_mem _ hc'))]
      simp [List.filter_cons, hp]

/-- C2 amended: a provider-side failure while submitting any one tenant's
usage aborts the whole pass — the error propagates, no SyncResult rows
are returned, tenants after the failing one are never submitted (the call
trace ends at the failing tenant), and the committed state is unchanged,
even though earlier tenants' submissions already reached the provider. -/
theorem sync_usage_failure_aborts
    (rme : String → Int → Int → Except StripeError (Option UsageRecord))
    (db : Db) (fil : Option Int) (now : Int)
    (pre post : List Client) (c : Client) (e : StripeError)
    (hel : eligible_clients db fil = pre ++ c :: post)
    (hsucc : ∀ c' ∈ pre, 0 < compute_units db c' now →
      ∃ r, rme (c'.stripe_metered_subscription_item_id.getD "")
        (compute_units db c' now) now = Except.ok r)
    (hpos : 0 < compute_units db c now)
    (herr : rme (c.stripe_metered_subscription_item_id.getD "")
      (compute_units db c now) now = .error e) :
    sync_usage rme db fil false now =
      { result := .error e
        db := db
        calls := (pre.filter (fun c' => decide (0 < compute_units db c' now))).map
                   (fun c' => ⟨c'.stripe_metered_subscription_item_id.getD "",
                               compute_units db c' now, now⟩)
                 ++ [⟨c.stripe_metered_subscription_item_id.getD "",
                      compute_units db c now, now⟩] } := by
  unfold sync_usage
  rw [hel, sync_loop_fail_at rme db now c post e hpos herr pre db.clients [] [] hsucc]
  simp

/-- A provider that accepts the first tenant's meter item and fails with
a rate limit on the second tenant's. -/
def rmeFailSecond : String → Int → Int → Except StripeError (Option UsageRecord) :=
  fun item _ _ => if item == "si_2" then .error .rateLimit else .ok none

/-- Closed instance of the amended C2 statement with the failure at the
second eligible tenant: the first tenant's usage was already submitted,
yet the pass aborts with no rows and no commit. -/
theorem sync_usage_failure_aborts_witness :
    sync_usage rmeFailSecond twoTenantDb none false 100 =
      { result := .error .rateLimit
        db := twoTenantDb
        calls := [⟨"si_1", 5, 100⟩, ⟨"si_2", 7, 100⟩] } :=
  sync_usage_failure_aborts rmeFailSecond twoTenantDb none 100 [tenantOne] []
    tenantTwo .rateLimit rfl
    (by
      intro c' hc' _
      rcases List.mem_singleton.mp hc' with rfl
      exact ⟨none, rfl⟩)
    (by decide) rfl

/-- A row-update map that preserves event ids cannot disturb the dedup
lookup: after appending a fresh row for `eid` to a log with no `eid` row,
the lookup finds exactly the (updated) new row. -/
theorem find_log_append_map (f : StripeEventLog → StripeEventLog)
    (hf : ∀ r, (f r).event_id = r.event_id)
    (l : List StripeEventLog) (row : StripeEventLog) (eid : String)
    (h : find_log l eid = none) (hrow : row.event_id = eid) :
    find_log ((l ++ [row]).map f) eid = some (f row) := by
  unfold find_log at h ⊢
  rw [List.map_append, List.find?_append]
  have h1 : (l.map f).find? (fun r => r.event_id == eid) = none := by
    apply List.find?_eq_none.mpr
    intro x hx
    rcases List.mem_map.mp hx with ⟨r, hr, rfl⟩
    have := List.find?_eq_none.mp h r hr
    simpa [hf r] using this
  rw [h1]
  simp [List.find?, hf row, hrow]

/-- A row-update map that preserves event ids preserves the per-event-id
row count. -/
theorem count_log_map (f : StripeEventLog → StripeEventLog)
    (hf : ∀ r, (f r).event_id = r.event_id)
    (l : List StripeEventLog) (eid : String) :
    count_log (l.map f) eid = count_log l eid := by
  unfold count_log
  induction l with
  | nil => rfl
  | cons a l ih =>
    rw [List.map_cons, List.countP_cons, List.countP_cons, ih, hf]

/-- The success-path row update preserves event ids. -/
theorem mark_done_preserves_event_id (rid : Int) (st2 : String) (ts : Int) :
    ∀ r : StripeEventLog,
      ((if r.id == rid then { r with status := st2, processed_at := some ts } else r)).event_id
        = r.event_id := by
  intro r
  by_cases hr : (r.id == rid) = true <;> simp [hr]

/-- The failure-path row update preserves event ids. -/
theorem mark_failed_preserves_event_id (rid : Int) (msg : String) (ts : Int) :
    ∀ r : StripeEventLog,
      ((if r.id == rid then
          { r with
            status := "failed"
            error_message := some (msg.take 1000)
            processed_at := some ts }
        else r)).event_id = r.event_id := by
  intro r
  by_cases hr : (r.id == rid) = true <;> simp [hr]

/-- Appending the fresh row to a log holding no row for this event id
gives exactly one row for it. -/
theorem count_log_append_fresh (l : List StripeEventLog) (row : StripeEventLog)
    (eid : String) (h : find_log l eid = none) (hrow : row.event_id = eid) :
    count_log (l ++ [row]) eid = 1 := by
  unfold count_log
  rw [List.countP_append]
  have h0 : l.countP (fun r => r.event_id == eid) = 0 := by
    apply List.countP_eq_zero.mpr
    intro a ha
    exact List.find?_eq_none.mp h a ha
  rw [h0]
  simp [List.countP_cons, hrow]

/-- C1: delivering a webhook whose event id is not yet logged creates
exactly one Event Log row for that id, and any redelivery of the same
event id afterwards short-circuits with the duplicate response and leaves
the whole database untouched, so handler side effects apply at most once. -/
theorem webhook_dedup_idempotent (st : Settings) (db : Db) (e : Event)
    (now now2 nid nid2 : Int)
    (h : find_log db.event_log e.event_id = none) :
    count_log (stripe_webhook st db e now nid).2.event_log e.event_id = 1
  ∧ stripe_webhook st (stripe_webhook st db e now nid).2 e now2 nid2
      = (.duplicate, (stripe_webhook st db e now nid).2) := by
  rcases hd : dispatch_event st db.clients e with msg | res
  · have hweb : stripe_webhook st db e now nid =
        (.serverError,
         { db with event_log :=
            mark_log_failed (db.event_log ++ [new_log_row nid e]) nid msg now }) := by
      simp [stripe_webhook, h, hd]
    rw [hweb]
    constructor
    · show count_log (mark_log_failed (db.event_log ++ [new_log_row nid e]) nid msg now)
          e.event_id = 1
      unfold mark_log_failed
      rw [count_log_map _ (mark_failed_preserves_event_id nid msg now)]
      exact count_log_append_fresh db.event_log _ _ h rfl
    · have hfind := find_log_append_map _ (mark_failed_preserves_event_id nid msg now)
        db.event_log (new_log_row nid e) e.event_id h rfl
      simp only [stripe_webhook]
      rw [show find_log (mark_log_failed (db.event_log ++ [new_log_row nid e]) nid msg now)
            e.event_id
          = some _ from hfind]
  · rcases res with ⟨cl2, handled⟩
    have hweb : stripe_webhook st db e now nid =
        (.ok (if handled then "processed" else "ignored"),
         { db with
            clients := cl2
            event_log := mark_log_done (db.event_log ++ [new_log_row nid e]) nid
              (if handled then "processed" else "ignored") now }) := by
      simp [stripe_webhook, h, hd]
    rw [hweb]
    constructor
    · show count_log (mark_log_done (db.event_log ++ [new_log_row nid e]) nid
          (if handled then "processed" else "ignored") now) e.event_id = 1
      unfold mark_log_done
      rw [count_log_map _ (mark_done_preserves_event_id nid _ now)]
      exact count_log_append_fresh db.event_log _ _ h rfl
    · have hfind := find_log_append_map _
        (mark_done_preserves_event_id nid (if handled then "processed" else "ignored") now)
        db.event_log (new_log_row nid e) e.event_id h rfl
      simp only [stripe_webhook]
      rw [show find_log (mark_log_done (db.event_log ++ [new_log_row nid e]) nid
            (if handled then "processed" else "ignored") now) e.event_id
          = some _ from hfind]

/-- An event payload object with every key absent. -/
def exObjEmpty : EventObject :=
  { client_reference_id := none
    metadata_client_id := none
    customer := none
    subscription := none
    obj_id := none
    obj_status := none
    current_period_end := none
    items_data := [] }

/-- A delivery of an unrecognized event type. -/
def evUnknown : Event := ⟨"evt_1", "some.other.event", exObjEmpty⟩

/-- A database with no rows at all. -/
def emptyDb : Db := ⟨[], [], []⟩

/-- Closed instance of the dedup idempotence theorem: first delivery of a
fresh event id yields one log row, immediate redelivery is a no-op
duplicate. -/
theorem webhook_dedup_idempotent_witness :
    count_log (stripe_webhook ⟨none⟩ emptyDb evUnknown 0 1).2.event_log "evt_1" = 1
  ∧ stripe_webhook ⟨none⟩ (stripe_webhook ⟨none⟩ emptyDb evUnknown 0 1).2 evUnknown 5 2
      = (.duplicate, (stripe_webhook ⟨none⟩ emptyDb evUnknown 0 1).2) :=
  webhook_dedup_idempotent ⟨none⟩ emptyDb evUnknown 0 5 1 2 rfl

/-- C3 counterexample: the Event Log row committed before the handler is
dispatched carries status `ignored`, not `received` — the code never
writes a `received` status. -/
theorem webhook_initial_status_cex :
    (new_log_row 1 evUnknown).status = "ignored"
  ∧ ("ignored" : String) ≠ "received" :=
  ⟨rfl, by decide⟩

/-- C3 amended: on a fresh event id the log row is inserted with the
placeholder status `ignored` before dispatch, and after the delivery the
row for that event id ends in `processed`, `ignored` or `failed`. -/
theorem webhook_status_lifecycle (st : Settings) (db : Db) (e : Event)
    (now nid : Int)
    (h : find_log db.event_log e.event_id = none) :
    (new_log_row nid e).status = "ignored"
  ∧ ∃ r, find_log (stripe_webhook st db e now nid).2.event_log e.event_id = some r
      ∧ (r.status = "processed" ∨ r.status = "ignored" ∨ r.status = "failed") := by
  refine ⟨rfl, ?_⟩
  rcases hd : dispatch_event st db.clients e with msg | res
  · have hweb : stripe_webhook st db e now nid =
        (.serverError,
         { db with event_log :=
            mark_log_failed (db.event_log ++ [new_log_row nid e]) nid msg now }) := by
      simp [stripe_webhook, h, hd]
    rw [hweb]
    have hfind := find_log_append_map _ (mark_failed_preserves_event_id nid msg now)
      db.event_log (new_log_row nid e) e.event_id h rfl
    refine ⟨_, hfind, ?_⟩
    right; right
    simp [new_log_row]
  · rcases res with ⟨cl2, handled⟩
    have hweb : stripe_webhook st db e now nid =
        (.ok (if handled then "processed" else "ignored"),
         { db with
            clients := cl2
            event_log := mark_log_done (db.event_log ++ [new_log_row nid e]) nid
              (if handled then "processed" else "ignored") now }) := by
      simp [stripe_webhook, h, hd]
    rw [hweb]
    have hfind := find_log_append_map _
      (mark_done_preserves_event_id nid (if handled then "processed" else "ignored") now)
      db.event_log (new_log_row nid e) e.event_id h rfl
    refine ⟨_, hfind, ?_⟩
    cases handled
    · right; left; simp [new_log_row]
    · left; simp [new_log_row]

/-- Closed instance of the amended C3 statement on a fresh delivery. -/
theorem webhook_status_lifecycle_witness :
    (new_log_row 1 evUnknown).status = "ignored"
  ∧ ∃ r, find_log (stripe_webhook ⟨none⟩ emptyDb evUnknown 0 1).2.event_log "evt_1" = some r
      ∧ (r.status = "processed" ∨ r.status = "ignored" ∨ r.status = "failed") :=
  webhook_status_lifecycle ⟨none⟩ emptyDb evUnknown 0 1 rfl

/-- C5: when the handler of a fresh delivery raises, the endpoint answers
HTTP 500, every subscription-state write of the delivery is rolled back
(the client table equals the pre-delivery table), while the Event Log row
is committed with status `failed`, the error text truncated to 1000
characters, and a processed timestamp. -/
theorem webhook_failure_rollback (st : Settings) (db : Db) (e : Event)
    (now nid : Int) (msg : String)
    (hfresh : find_log db.event_log e.event_id = none)
    (herr : dispatch_event st db.clients e = .error msg) :
    (stripe_webhook st db e now nid).1 = .serverError
  ∧ (stripe_webhook st db e now nid).2.clients = db.clients
  ∧ ∃ r, find_log (stripe_webhook st db e now nid).2.event_log e.event_id = some r
      ∧ r.status = "failed"
      ∧ r.error_message = some (msg.take 1000)
      ∧ r.processed_at = some now := by
  have hweb : stripe_webhook st db e now nid =
      (.serverError,
       { db with event_log :=
          mark_log_failed (db.event_log ++ [new_log_row nid e]) nid msg now }) := by
    simp [stripe_webhook, hfresh, herr]
  rw [hweb]
  refine ⟨rfl, rfl, ?_⟩
  have hfind := find_log_append_map _ (mark_failed_preserves_event_id nid msg now)
    db.event_log (new_log_row nid e) e.event_id hfresh rfl
  refine ⟨_, hfind, ?_, ?_, ?_⟩ <;> simp [new_log_row]

/-- A checkout-completed delivery whose tenant reference is not parseable
as an integer. -/
def evBadRef : Event :=
  ⟨"evt_bad", "checkout.session.completed",
   { exObjEmpty with client_reference_id := some "abc" }⟩

/-- Closed instance of the rollback theorem on a handler that raises
(`int("abc")`): 500 response, clients untouched, failed row committed. -/
theorem webhook_failure_rollback_witness :
    (stripe_webhook ⟨none⟩ emptyDb evBadRef 7 1).1 = .serverError
  ∧ (stripe_webhook ⟨none⟩ emptyDb evBadRef 7 1).2.clients = []
  ∧ ∃ r, find_log (stripe_webhook ⟨none⟩ emptyDb evBadRef 7 1).2.event_log "evt_bad" = some r
      ∧ r.status = "failed"
      ∧ r.error_message = some (String.take ("invalid literal for int with base 10: " ++ "abc") 1000)
      ∧ r.processed_at = some 7 :=
  webhook_failure_rollback ⟨none⟩ emptyDb evBadRef 7 1
    ("invalid literal for int with base 10: " ++ "abc") rfl rfl

/-- The three provider event types routed to the subscription handler. -/
def subscription_event_type (t : String) : Prop :=
  t = "customer.subscription.created" ∨ t = "customer.subscription.updated"
    ∨ t = "customer.subscription.deleted"

/-- A delivery whose tenant reference field is present (truthy) but not
parseable as an integer, for the checkout handler or — after both Stripe-id
lookups miss — for the subscription handler. -/
def unparseable_tenant_ref (clients : List Client) (e : Event) : Prop :=
  (e.event_type = "checkout.session.completed"
    ∧ ∃ s, pyOr e.obj.client_reference_id e.obj.metadata_client_id = some s
        ∧ s ≠ "" ∧ pyInt s = none)
  ∨ (subscription_event_type e.event_type
    ∧ client_by_stripe_ids clients e.obj.customer e.obj.obj_id = none
    ∧ ∃ s, e.obj.metadata_client_id = some s ∧ s ≠ "" ∧ pyInt s = none)

/-- C10: a fresh delivery whose tenant reference is present but not an
integer makes the handler raise instead of returning not-handled: the
endpoint answers HTTP 500 and the Event Log row ends `failed`, not
`ignored`. -/
theorem unparseable_tenant_ref_fails (st : Settings) (db : Db) (e : Event)
    (now nid : Int)
    (hfresh : find_log db.event_log e.event_id = none)
    (href : unparseable_tenant_ref db.clients e) :
    (stripe_webhook st db e now nid).1 = .serverError
  ∧ ∃ r, find_log (stripe_webhook st db e now nid).2.event_log e.event_id = some r
      ∧ r.status = "failed" := by
  have herr : ∃ msg, dispatch_event st db.clients e = .error msg := by
    rcases href with ⟨ht, s, hor, hs, hp⟩ | ⟨ht, hcl, s, hm, hs, hp⟩
    · refine ⟨"invalid literal for int with base 10: " ++ s, ?_⟩
      simp [dispatch_event, ht, handle_checkout_completed, hor, hs, hp]
    · have hstep : handle_subscription_event st db.clients e
          = .error ("invalid literal for int with base 10: " ++ s) := by
        simp [handle_subscription_event, hcl, hm, hs, hp]
      refine ⟨"invalid literal for int with base 10: " ++ s, ?_⟩
      rcases ht with ht | ht | ht <;> simp [dispatch_event, ht, hstep]
  rcases herr with ⟨msg, herr⟩
  have hweb : stripe_webhook st db e now nid =
      (.serverError,
       { db with event_log :=
          mark_log_failed (db.event_log ++ [new_log_row nid e]) nid msg now }) := by
    simp [stripe_webhook, hfresh, herr]
  rw [hweb]
  refine ⟨rfl, ?_⟩
  have hfind := find_log_append_map _ (mark_failed_preserves_event_id nid msg now)
    db.event_log (new_log_row nid e) e.event_id hfresh rfl
  exact ⟨_, hfind, by simp [new_log_row]⟩

/-- Closed instance of C10 on a checkout delivery with reference "abc". -/
theorem unparseable_tenant_ref_fails_witness :
    (stripe_webhook ⟨none⟩ emptyDb evBadRef 7 1).1 = .serverError
  ∧ ∃ r, find_log (stripe_webhook ⟨none⟩ emptyDb evBadRef 7 1).2.event_log "evt_bad" = some r
      ∧ r.status = "failed" :=
  unparseable_tenant_ref_fails ⟨none⟩ emptyDb evBadRef 7 1 rfl
    (Or.inl ⟨rfl, "abc", rfl, by decide, rfl⟩)

/-- With a configured metered price id, the extraction is exactly the
first-match lookup over the line items. -/
theorem extract_metered_eq_bind (st : Settings) (obj : EventObject)
    (hcfg : strTruthy st.stripe_price_metered_id = true) :
    extract_metered_subscription_item_id st obj
      = (obj.items_data.find? (fun item => item.price_id == st.stripe_price_metered_id)).bind
          (fun item => item.id) := by
  unfold extract_metered_subscription_item_id
  rw [hcfg]
  cases obj.items_data.find? (fun item => item.price_id == st.stripe_price_metered_id) <;> simp

/-- The configuration fixture: metered price id set to `price_metered`. -/
def exSettings : Settings := ⟨some "price_metered"⟩

/-- A client that already carries a metered line-item id. -/
def clientWithOldItem : Client :=
  { baseClient with
    id := 1
    stripe_subscription_id := some "sub_1"
    stripe_metered_subscription_item_id := some "si_old"
    subscription_status := some "active" }

/-- A subscription-updated delivery whose line items contain no item with
the configured metered price id. -/
def evSubNoMatch : Event :=
  ⟨"evt_sub1", "customer.subscription.updated",
   { exObjEmpty with
     customer := some "cus_1"
     obj_id := some "sub_1"
     obj_status := some "active"
     current_period_end := some 999
     items_data := [⟨some "si_base", some "price_base"⟩] }⟩

/-- C4 counterexample: a subscription-updated event with no matching line
item does not keep the prior metered line-item id — the handler overwrites
the field with null. -/
theorem metered_item_cleared_cex :
    clientWithOldItem.stripe_metered_subscription_item_id = some "si_old"
  ∧ handle_subscription_event exSettings [clientWithOldItem] evSubNoMatch
      = .ok ([{ id := 1
                stripe_customer_id := some "cus_1"
                stripe_subscription_id := some "sub_1"
                stripe_metered_subscription_item_id := none
                subscription_status := some "active"
                subscription_current_period_end := some 999
                billing_enabled := true
                usage_synced_until := none }], true)
  ∧ (some "si_old" : Option String) ≠ none :=
  ⟨rfl, rfl, by decide⟩

/-- C4 amended: whenever a subscription created/updated/deleted event
resolves to a client and is handled, the stored table is the single-row
update of that client, whose metered line-item id equals the first line
item matching the configured metered price id — or null when none matches,
clearing any prior value. -/
theorem subscription_event_metered_item (st : Settings) (clients cl2 : List Client)
    (e : Event)
    (hok : handle_subscription_event st clients e = .ok (cl2, true))
    (hcfg : strTruthy st.stripe_price_metered_id = true) :
    ∃ c, cl2 = updateClient clients c
      ∧ c.stripe_metered_subscription_item_id
          = (e.obj.items_data.find? (fun item => item.price_id == st.stripe_price_metered_id)).bind
              (fun item => item.id) := by
  have hbind := extract_metered_eq_bind st e.obj hcfg
  unfold handle_subscription_event at hok
  rcases h1 : client_by_stripe_ids clients e.obj.customer e.obj.obj_id with _ | c
  · rcases h2 : e.obj.metadata_client_id with _ | m
    · simp [h1, h2] at hok
    · by_cases h3 : m = ""
      · simp [h1, h2, h3] at hok
      · rcases h4 : pyInt m with _ | cid
        · simp [h1, h2, h3, h4] at hok
        · rcases h5 : clientById clients cid with _ | c
          · simp [h1, h2, h3, h4, h5] at hok
          · simp [h1, h2, h3, h4, h5] at hok
            refine ⟨_, hok.symm, ?_⟩
            by_cases hdel : e.event_type = "customer.subscription.deleted" <;>
              simp [hdel, update_client_subscription_state, hbind]
  · simp [h1] at hok
    refine ⟨_, hok.symm, ?_⟩
    by_cases hdel : e.event_type = "customer.subscription.deleted" <;>
      simp [hdel, update_client_subscription_state, hbind]

/-- A subscription-updated delivery whose line items contain two entries
with the configured metered price id (after a non-matching one). -/
def evSubMatch : Event :=
  ⟨"evt_sub2", "customer.subscription.updated",
   { exObjEmpty with
     customer := some "cus_1"
     obj_id := some "sub_1"
     obj_status := some "active"
     items_data := [⟨some "si_base", some "price_base"⟩,
                    ⟨some "si_met", some "price_metered"⟩,
                    ⟨some "si_met2", some "price_metered"⟩] }⟩

/-- Closed instance of the amended C4 statement: the first matching line
item wins, overwriting the previously stored id. -/
theorem subscription_event_metered_item_witness :
    ∃ c, [({ id := 1
             stripe_customer_id := some "cus_1"
             stripe_subscription_id := some "sub_1"
             stripe_metered_subscription_item_id := some "si_met"
             subscription_status := some "active"
             subscription_current_period_end := none
             billing_enabled := true
             usage_synced_until := none } : Client)] = updateClient [clientWithOldItem] c
      ∧ c.stripe_metered_subscription_item_id
          = (evSubMatch.obj.items_data.find?
              (fun item => item.price_id == exSettings.stripe_price_metered_id)).bind
              (fun item => item.id) :=
  subscription_event_metered_item exSettings [clientWithOldItem] _ evSubMatch rfl rfl
